import Mathlib

/-!
Shallow embedding of `src/assistant.py` (meta-prompting assistant CLI).

The program is a sequential orchestration loop over a remote run service.
All remote interaction and console I/O is modelled by an explicit event
trace, and the remote service's successive answers are supplied as oracle
scripts inside a `Client` record: each network call pops the next scripted
answer.  Python strings become `String`, `None`-able values become
`Option`, uncaught Python exceptions become an explicit `exn` outcome, and
the unbounded `while True` loops take fuel (a `stuck` outcome means the
oracle script or the fuel ran out, which is a model artifact, never a
behavior of the program).
-/

namespace Assistant

/- Colorama foreground color codes used by the source's prints. -/
namespace Fore

def GREEN : String := "\x1b[32m"

def RED : String := "\x1b[31m"

def YELLOW : String := "\x1b[33m"

def BLUE : String := "\x1b[34m"

def CYAN : String := "\x1b[36m"

end Fore

/- Colorama style codes used by the source's prints. -/
namespace Style

def RESET_ALL : String := "\x1b[0m"

end Style

/-- `continuation_prompt` from `assistant.py` lines 13-17, verbatim. -/
def continuation_prompt : String :=
  "Based on the information given, what are the most logical next steps or conclusions?\n" ++
  "Analyze all previous interaction and ask for clarification from a different expert if one contradicts itself.\n" ++
  "Please make sure that the solution is accurate, directly answers the original question, and follows all given constraints.\n" ++
  "Additionally, review the final solution or have another expert(s) verify it.\n" ++
  "If you were asked for any clarification, please provide it. Remember that experts cannot recall any previous interaction so provide all necessary details."

/-- Parsed JSON arguments of a `contact_expert` tool call:
`json.loads(tool_call.function.arguments)` followed by `args['name']`,
`args.get('persona')` (absent key gives Python `None`, hence `Option`),
`args['instructions']`.  JSON decoding itself is abstracted: the record
holds the already-parsed fields the code reads. -/
structure ExpertArgs where
  name : String
  persona : Option String
  instructions : String
deriving DecidableEq, Repr

/-- A pending tool call of a `requires_action` run
(`run.required_action.submit_tool_outputs.tool_calls[i]`). -/
structure ToolCall where
  id : String
  function_name : String
  args : ExpertArgs
deriving DecidableEq, Repr

/-- A run snapshot as returned by the remote service.  `status` is the raw
status string the Python code compares against literals. `tool_calls` is
`required_action.submit_tool_outputs.tool_calls` (meaningful when the
status is `requires_action`). -/
structure Run where
  thread_id : String
  id : String
  status : String
  tool_calls : List ToolCall
deriving DecidableEq, Repr

/-- A conversation message: `message['id']` and the list
`message['content']`, where each element stands for its
`['text']['value']` field (the only part the code reads). -/
structure Msg where
  id : String
  contents : List String
deriving DecidableEq, Repr

/-- A tool output record `{tool_call_id, output}` submitted back to the run. -/
structure ToolOutput where
  tool_call_id : String
  output : String
deriving DecidableEq, Repr

/-- The chat-completion request payload built by `handle_contact_expert`
(model, the two messages' contents, and the sampling temperature). -/
structure ChatPayload where
  model : String
  system_content : String
  user_content : String
  temperature : ℚ
deriving DecidableEq, Repr

/-- Observable effects of the program: console prints, sleeps, the stdin
read, and each remote API call. -/
inductive Event where
  | print (s : String)
  | sleep (seconds : Nat)
  | readLine
  | createAndRun (seed : String)
  | retrieveRun
  | chatCompletion (payload : ChatPayload)
  | submitToolOutputs (outs : List ToolOutput)
  | listMessages (after : Option String)
deriving DecidableEq, Repr

/-- Remote API calls among the events (everything except console I/O and
sleeps). -/
def isRemoteCall : Event → Bool
  | .createAndRun _ => true
  | .retrieveRun => true
  | .chatCompletion _ => true
  | .submitToolOutputs _ => true
  | .listMessages _ => true
  | _ => false

/-- The payload lists of the `submitToolOutputs` calls occurring in a
trace, in order. -/
def submittedOutputs (tr : List Event) : List (List ToolOutput) :=
  tr.filterMap fun e =>
    match e with
    | .submitToolOutputs outs => some outs
    | _ => none

deriving instance DecidableEq for Except

/-- Oracle scripts for the remote service: the successive results of each
kind of remote call.  `completions` entries are either the completion text
(`.ok`) or an `OpenAIError` message (`.error`); `create` is the result of
`create_and_run`; `polls` the successive `runs.retrieve` results; `submits`
the successive `submit_tool_outputs` results; `lists` the successive
`messages.list` results. -/
structure Client where
  create : Except String Run
  polls : List Run
  completions : List (Except String String)
  submits : List Run
  lists : List (List Msg)
deriving DecidableEq, Repr

/-- Python truthiness of an optional string: `None` and `""` are falsy. -/
def pyTruthy : Option String → Bool
  | none => false
  | some s => !s.isEmpty

/-- Python `str()` of an optional string as interpolated by an f-string:
`None` renders as the literal text `None`. -/
def pyStr : Option String → String
  | none => "None"
  | some s => s

/-- Python `x or ''` on an optional string. -/
def pyOrEmpty : Option String → String
  | none => ""
  | some s => s

/-- `handle_contact_expert` (lines 28-44): builds the chat payload with the
persona interpolated into the system message, issues the completion call,
and returns the content; on `OpenAIError` prints the message and returns
`None`.  The remote answer is the scripted `reply`. -/
def handle_contact_expert (reply : Except String String) (name : String)
    (persona : Option String) (instructions : String) :
    Option String × List Event :=
  let payload : ChatPayload :=
    { model := "gpt-4-turbo-preview"
      system_content := "You are an " ++ name ++ ". " ++ pyStr persona
      user_content := instructions
      temperature := 2 / 10 }
  match reply with
  | .ok content => (some content, [.chatCompletion payload])
  | .error e => (none, [.chatCompletion payload, .print e])

/-- File-system effects of the script runner. -/
inductive FsEvent where
  | create (name : String)
  | write (name : String) (data : String)
  | exec (name : String)
  | remove (name : String)
deriving DecidableEq, Repr

/-- Result of the `subprocess.run` call as scripted by the environment. -/
structure SubprocessResult where
  returncode : Int
  stdout : String
  stderr : String
deriving DecidableEq, Repr

/-- Whether the named file exists after replaying a file-system trace
(starting from non-existence). -/
def fileExistsAfter (name : String) (tr : List FsEvent) : Bool :=
  tr.foldl
    (fun b e =>
      match e with
      | .create n => if n = name then true else b
      | .remove n => if n = name then false else b
      | _ => b)
    false

/-- `execute_python_code_local` (lines 47-65): writes the script text to
the unique temporary file `tempName` (`NamedTemporaryFile` with
`delete=False`), runs it in a subprocess with `check=True` (which raises
`CalledProcessError` on a non-zero exit code, caught to return `e.stderr`
in place of `result.stdout`), and removes the file in a `finally` block on
both exit paths. -/
def execute_python_code_local (tempName : String) (s : String)
    (res : SubprocessResult) : String × List FsEvent :=
  let acquired : List FsEvent := [.create tempName, .write tempName s]
  if res.returncode = 0 then
    (res.stdout, acquired ++ [.exec tempName, .remove tempName])
  else
    (res.stderr, acquired ++ [.exec tempName, .remove tempName])

/-- `check_run` (lines 68-87): repeatedly retrieve the run; return it on
`completed`, `expired`, `failed` or `requires_action` (printing the
corresponding message); otherwise print a waiting message, sleep one
second and retry.  The argument list scripts the successive `retrieve`
results; exhausting it yields `none` (unanswered network call, a model
artifact). -/
def check_run : List Run → Option (Run × List Run) × List Event
  | [] => (none, [])
  | r :: rest =>
    if r.status = "completed" then
      (some (r, rest),
        [.retrieveRun, .print (Fore.GREEN ++ " Run is completed." ++ Style.RESET_ALL)])
    else if r.status = "expired" ∨ r.status = "failed" then
      (some (r, rest),
        [.retrieveRun, .print (Fore.RED ++ "Run is " ++ r.status ++ "." ++ Style.RESET_ALL)])
    else if r.status = "requires_action" then
      (some (r, rest),
        [.retrieveRun,
          .print (Fore.YELLOW ++ " OpenAI: Running function..." ++ r.status ++ " " ++ Style.RESET_ALL)])
    else
      let next := check_run rest
      (next.1,
        .retrieveRun ::
        .print (Fore.YELLOW ++ " OpenAI: Run is not yet completed. Waiting..." ++ r.status ++ " " ++ Style.RESET_ALL) ::
        .sleep 1 :: next.2)

/-- A status on which `check_run` returns instead of sleeping and
retrying. -/
def isTerminal (s : String) : Bool :=
  s = "completed" || s = "expired" || s = "failed" || s = "requires_action"

/-- Local state of `run_assistant`'s loop: the oracle scripts still
unconsumed, the current `run` variable, and the `last_id` cursor. -/
structure DriverState where
  client : Client
  run : Run
  last_id : Option String
deriving DecidableEq, Repr

/-- Result of one iteration of `run_assistant`'s `while True` body. -/
inductive StepResult where
  | cont (st : DriverState) (tr : List Event)
  | done (tr : List Event)
  | exn (msg : String) (tr : List Event)
  | stuck (tr : List Event)
deriving DecidableEq, Repr

/-- The event trace of a step result. -/
def StepResult.events : StepResult → List Event
  | .cont _ tr => tr
  | .done tr => tr
  | .exn _ tr => tr
  | .stuck tr => tr

/-- The message-printing `for` loop (lines 132-134): prints each message's
`content[0]['text']['value']`; a message with an empty `content` list makes
the subscript raise `IndexError`, aborting the loop there.  Returns the
prints emitted before any such error, and whether one occurred. -/
def print_messages : List Msg → List Event × Bool
  | [] => ([], false)
  | m :: ms =>
    match m.contents with
    | [] => ([], true)
    | c :: _ =>
      let next := print_messages ms
      (.print (Fore.BLUE ++ " Assistant: " ++ c ++ " " ++ Style.RESET_ALL) :: next.1, next.2)

/-- One iteration of `run_assistant`'s loop (lines 94-137): poll via
`check_run`; on `requires_action` take `tool_calls[0]` (raising
`IndexError` when empty), dispatch `contact_expert` through
`handle_contact_expert`, and submit the single tool output only when the
response is truthy; on any other status list the messages after the
cursor, take `data[-1]['id']` (raising `IndexError` when the list is
empty), print the messages, and `break` only on `completed`. -/
def driver_step (st : DriverState) : StepResult :=
  match check_run st.client.polls with
  | (none, tr) => .stuck tr
  | (some (run, polls'), tr) =>
    let client := { st.client with polls := polls' }
    if run.status = "requires_action" then
      match run.tool_calls with
      | [] => .exn "list index out of range" tr
      | tc :: _ =>
        if tc.function_name = "contact_expert" then
          let name := tc.args.name
          let persona := tc.args.persona
          let instructions := tc.args.instructions
          let blue : Event :=
            .print (Fore.BLUE ++ " " ++ name ++ ": " ++ pyOrEmpty persona ++ "\n" ++
              instructions ++ " " ++ Style.RESET_ALL)
          match client.completions with
          | [] => .stuck (tr ++ [blue])
          | reply :: comps' =>
            let client := { client with completions := comps' }
            let hce := handle_contact_expert reply name persona instructions
            let tr := tr ++ blue :: hce.2
            if pyTruthy hce.1 then
              let response := pyStr hce.1
              let out : ToolOutput :=
                { tool_call_id := tc.id
                  output := response ++ "\n\n" ++ continuation_prompt }
              let cyan : Event :=
                .print (Fore.CYAN ++ " " ++ name ++ ": " ++ response ++ " " ++ Style.RESET_ALL)
              match client.submits with
              | [] => .stuck (tr ++ [cyan, .submitToolOutputs [out]])
              | newRun :: subs' =>
                .cont ⟨{ client with submits := subs' }, newRun, st.last_id⟩
                  (tr ++ [cyan, .submitToolOutputs [out]])
            else
              .cont ⟨client, run, st.last_id⟩ tr
        else
          .cont ⟨client, run, st.last_id⟩ tr
    else
      match client.lists with
      | [] => .stuck (tr ++ [.listMessages st.last_id])
      | msgs :: lists' =>
        let client := { client with lists := lists' }
        let tr := tr ++ [.listMessages st.last_id]
        match msgs.getLast? with
        | none => .exn "list index out of range" tr
        | some lastMsg =>
          let pm := print_messages msgs
          if pm.2 then .exn "list index out of range" (tr ++ pm.1)
          else if run.status = "completed" then .done (tr ++ pm.1)
          else .cont ⟨client, run, some lastMsg.id⟩ (tr ++ pm.1)

/-- How `run_assistant` finished: returned normally (`break` on
`completed`), raised an uncaught exception, or the model ran out of fuel
or oracle script. -/
inductive Outcome where
  | ok
  | exn (msg : String)
  | stuck
deriving DecidableEq, Repr

/-- `run_assistant` (lines 90-137) as a fueled iteration of
`driver_step`, accumulating the event trace. -/
def run_assistant : Nat → DriverState → Outcome × List Event
  | 0, _ => (.stuck, [])
  | fuel + 1, st =>
    match driver_step st with
    | .done tr => (.ok, tr)
    | .exn m tr => (.exn m, tr)
    | .stuck tr => (.stuck, tr)
    | .cont st' tr =>
      let next := run_assistant fuel st'
      (next.1, tr ++ next.2)

/-- `handle_user_input` (lines 20-25): prints the prompt and the style
reset, then reads one line (supplied as `user_input`). -/
def handle_user_input (user_input : String) : String × List Event :=
  (user_input,
    [.print (Fore.CYAN ++ " User Command:"), .print Style.RESET_ALL, .readLine])

/-- Process-level result of `main`. -/
inductive MainOutcome where
  | exitCode (c : Nat)
  | stuck
deriving DecidableEq, Repr

/-- `main` (lines 140-161): read one input line; on the literal `quit`
exit 0 before any remote call; otherwise `create_and_run` the conversation
and hand off to `run_assistant` inside a `try` whose handler prints the
exception message and exits 1; falling off the end exits 0. -/
def main (user_input : String) (fuel : Nat) (client : Client) :
    MainOutcome × List Event :=
  let hui := handle_user_input user_input
  if hui.1 = "quit" then (.exitCode 0, hui.2)
  else
    match client.create with
    | .error e => (.exitCode 1, hui.2 ++ [.createAndRun user_input, .print e])
    | .ok run =>
      match run_assistant fuel ⟨client, run, none⟩ with
      | (.ok, tr) => (.exitCode 0, hui.2 ++ .createAndRun user_input :: tr)
      | (.exn m, tr) =>
        (.exitCode 1, hui.2 ++ .createAndRun user_input :: tr ++ [.print m])
      | (.stuck, tr) => (.stuck, hui.2 ++ .createAndRun user_input :: tr)

/-- The sleep events occurring in a trace, in order. -/
def sleepEvents (tr : List Event) : List Event :=
  tr.filter fun e =>
    match e with
    | .sleep _ => true
    | _ => false

/- Concrete sample data used by witness and counterexample theorems. -/

/-- A sample `queued` run snapshot. -/
def queuedRun : Run := ⟨"th1", "r1", "queued", []⟩

/-- A sample `in_progress` run snapshot. -/
def inProgressRun : Run := ⟨"th1", "r1", "in_progress", []⟩

/-- A sample `completed` run snapshot. -/
def completedRun : Run := ⟨"th1", "r1", "completed", []⟩

/-- A sample `failed` run snapshot. -/
def failedRun : Run := ⟨"th1", "r1", "failed", []⟩

/-- A sample `contact_expert` tool call carrying a persona. -/
def tcSample : ToolCall :=
  ⟨"call1", "contact_expert", ⟨"Expert", some "a careful analyst", "Solve the task"⟩⟩

/-- A sample `requires_action` run snapshot holding `tcSample`. -/
def raRunSample : Run := ⟨"th1", "r1", "requires_action", [tcSample]⟩

/-- A sample conversation message with one content block. -/
def msgSample : Msg := ⟨"m1", ["hello"]⟩

/-- A second sample conversation message. -/
def msgSample2 : Msg := ⟨"m2", ["again"]⟩

/-- Claim C5: for every script source text (and every subprocess result),
the temporary file created by `execute_python_code_local` no longer exists
when the function returns, on both the zero and the non-zero exit path. -/
theorem c5_temp_file_removed_on_every_path (tempName s : String)
    (res : SubprocessResult) :
    fileExistsAfter tempName (execute_python_code_local tempName s res).2 = false := by
  unfold execute_python_code_local
  split <;> simp [fileExistsAfter]

/-- Claim C6: `execute_python_code_local` returns the subprocess's
captured standard output when it exits with code zero, and its captured
standard error when it exits with a non-zero code. -/
theorem c6_stdout_on_zero_stderr_on_nonzero (tempName s : String)
    (res : SubprocessResult) :
    (res.returncode = 0 → (execute_python_code_local tempName s res).1 = res.stdout) ∧
    (res.returncode ≠ 0 → (execute_python_code_local tempName s res).1 = res.stderr) := by
  unfold execute_python_code_local
  constructor
  · intro h
    simp [h]
  · intro h
    simp [h]

/-- Witness for C6 at concrete subprocess results (exit code 0 and 1). -/
theorem c6_stdout_on_zero_stderr_on_nonzero_witness :
    (execute_python_code_local "/tmp/t.py" "x" ⟨0, "ok\n", ""⟩).1 = "ok\n" ∧
    (execute_python_code_local "/tmp/t.py" "x" ⟨1, "", "boom"⟩).1 = "boom" :=
  ⟨(c6_stdout_on_zero_stderr_on_nonzero "/tmp/t.py" "x" ⟨0, "ok\n", ""⟩).1 rfl,
   (c6_stdout_on_zero_stderr_on_nonzero "/tmp/t.py" "x" ⟨1, "", "boom"⟩).2 (by decide)⟩

/-- Claim C7: on the input line `quit`, `main` exits with code 0 and its
trace contains no remote call, for every oracle client and fuel. -/
theorem c7_quit_exits_zero_no_remote_calls (fuel : Nat) (client : Client) :
    (main "quit" fuel client).1 = .exitCode 0 ∧
    ((main "quit" fuel client).2.all fun e => !isRemoteCall e) = true := by
  constructor
  · rfl
  · rfl

/-- Claim C3: for any poll script whose statuses are non-terminal up to a
first terminal one (`completed`, `expired`, `failed` or
`requires_action`), `check_run` returns exactly at that first terminal
snapshot, leaving the rest of the script unconsumed, and its trace holds
one fixed 1-second sleep per preceding non-terminal status. -/
theorem c3_check_run_returns_at_first_terminal (pre : List Run) (r : Run)
    (rest : List Run) (hpre : ∀ p ∈ pre, isTerminal p.status = false)
    (hr : isTerminal r.status = true) :
    (check_run (pre ++ r :: rest)).1 = some (r, rest) ∧
    sleepEvents (check_run (pre ++ r :: rest)).2 =
      List.replicate pre.length (.sleep 1) := by
  induction pre with
  | nil =>
    simp only [List.nil_append, List.length_nil, List.replicate_zero]
    simp only [isTerminal, Bool.or_eq_true, decide_eq_true_eq] at hr
    obtain ⟨rth, rid, rstat, rtc⟩ := r
    simp only at hr
    rcases hr with ((h | h) | h) | h <;> subst h <;> simp [check_run, sleepEvents]
  | cons p ps ih =>
    have hp : isTerminal p.status = false := hpre p (List.mem_cons_self p ps)
    have hps : ∀ q ∈ ps, isTerminal q.status = false := fun q hq =>
      hpre q (List.mem_cons_of_mem p hq)
    obtain ⟨ih1, ih2⟩ := ih hps
    simp only [isTerminal, Bool.or_eq_false_iff, decide_eq_false_iff_not] at hp
    obtain ⟨⟨⟨h1, h2⟩, h3⟩, h4⟩ := hp
    simp only [List.cons_append, check_run, h1, h2, h3, h4, if_false,
      or_self, ite_false, List.length_cons]
    refine ⟨ih1, ?_⟩
    simp [sleepEvents] at ih2 ⊢
    simp [ih2, List.replicate_succ]

/-- Witness for C3: two non-terminal polls (`queued`, `in_progress`)
before a `completed` one give exactly two 1-second sleeps and return the
completed snapshot. -/
theorem c3_check_run_returns_at_first_terminal_witness :
    (check_run ([queuedRun, inProgressRun] ++ completedRun :: [])).1 =
      some (completedRun, []) ∧
    sleepEvents (check_run ([queuedRun, inProgressRun] ++ completedRun :: [])).2 =
      List.replicate 2 (.sleep 1) :=
  c3_check_run_returns_at_first_terminal [queuedRun, inProgressRun]
    completedRun [] (by decide) (by decide)

/-- Claim C2: in a `requires_action` cycle whose first pending tool call
is a `contact_expert` call and whose expert reply is a non-empty string
`R`, exactly one submit-tool-outputs call occurs, carrying the single
output `R ++ "\n\n" ++ continuation_prompt` for that call's id. -/
theorem c2_submitted_output_is_reply_plus_continuation
    (thid rid tcid pname pinstr : String) (ppersona : Option String)
    (tcs : List ToolCall) (R : String) (hR : R ≠ "")
    (polls' : List Run) (comps : List (Except String String))
    (newRun : Run) (subs : List Run) (lists : List (List Msg))
    (create : Except String Run) (run0 : Run) (last : Option String) :
    submittedOutputs
      (driver_step
        ⟨⟨create,
          (⟨thid, rid, "requires_action", ⟨tcid, "contact_expert", ⟨pname, ppersona, pinstr⟩⟩ :: tcs⟩ : Run) :: polls',
          Except.ok R :: comps, newRun :: subs, lists⟩, run0, last⟩).events =
      [[⟨tcid, R ++ "\n\n" ++ continuation_prompt⟩]] := by
  have hne : R.isEmpty = false := by
    rcases h : R.isEmpty with _ | _
    · rfl
    · exact absurd ((String.isEmpty_iff R).mp h) hR
  simp [driver_step, check_run, handle_contact_expert, pyTruthy, pyStr, hne,
    StepResult.events, submittedOutputs]

/-- Witness for C2: a concrete expert reply `"R"` yields exactly the one
submitted output `"R\n\n" ++ continuation_prompt`. -/
theorem c2_submitted_output_is_reply_plus_continuation_witness :
    submittedOutputs
      (driver_step
        ⟨⟨Except.ok raRunSample,
          (⟨"th1", "r1", "requires_action", ⟨"call1", "contact_expert", ⟨"Expert", some "a careful analyst", "Solve the task"⟩⟩ :: []⟩ : Run) :: [],
          Except.ok "R" :: [], completedRun :: [], []⟩, raRunSample, none⟩).events =
      [[⟨"call1", "R" ++ "\n\n" ++ continuation_prompt⟩]] :=
  c2_submitted_output_is_reply_plus_continuation "th1" "r1" "call1" "Expert"
    "Solve the task" (some "a careful analyst") [] "R" (by decide) []
    [] completedRun [] [] (Except.ok raRunSample) raRunSample none

/-- Claim C4: in a `requires_action` cycle where the expert call fails
(`OpenAIError`, scripted as `.error e`), the driver submits no tool
output: the step issues no submit call, and the loop re-enters polling
with the `run` variable still the polled `requires_action` snapshot and
the submit script untouched. -/
theorem c4_no_answer_submits_nothing
    (thid rid tcid pname pinstr : String) (ppersona : Option String)
    (tcs : List ToolCall) (e : String)
    (polls' : List Run) (comps : List (Except String String))
    (subs : List Run) (lists : List (List Msg))
    (create : Except String Run) (run0 : Run) (last : Option String) :
    ∃ tr,
      driver_step
        ⟨⟨create,
          (⟨thid, rid, "requires_action", ⟨tcid, "contact_expert", ⟨pname, ppersona, pinstr⟩⟩ :: tcs⟩ : Run) :: polls',
          Except.error e :: comps, subs, lists⟩, run0, last⟩ =
        .cont
          ⟨⟨create, polls', comps, subs, lists⟩,
            ⟨thid, rid, "requires_action", ⟨tcid, "contact_expert", ⟨pname, ppersona, pinstr⟩⟩ :: tcs⟩,
            last⟩ tr ∧
      submittedOutputs tr = [] := by
  refine
    ⟨[.retrieveRun,
      .print (Fore.YELLOW ++ " OpenAI: Running function..." ++ "requires_action" ++ " " ++ Style.RESET_ALL),
      .print (Fore.BLUE ++ " " ++ pname ++ ": " ++ pyOrEmpty ppersona ++ "\n" ++ pinstr ++ " " ++ Style.RESET_ALL),
      .chatCompletion ⟨"gpt-4-turbo-preview", "You are an " ++ pname ++ ". " ++ pyStr ppersona, pinstr, 2 / 10⟩,
      .print e], ?_, ?_⟩
  · simp [driver_step, check_run, handle_contact_expert, pyTruthy]
  · simp [submittedOutputs]

/-- Claim C8: in a `requires_action` cycle where the expert call succeeds
with the empty string, the driver behaves exactly as in the no-answer
case: the step's whole trace is the poll print, the dispatch print and the
completion call — no reply print and no submit call — and the loop
re-enters polling with the `run` variable unchanged. -/
theorem c8_empty_reply_is_no_op
    (thid rid tcid pname pinstr : String) (ppersona : Option String)
    (tcs : List ToolCall)
    (polls' : List Run) (comps : List (Except String String))
    (subs : List Run) (lists : List (List Msg))
    (create : Except String Run) (run0 : Run) (last : Option String) :
    driver_step
      ⟨⟨create,
        (⟨thid, rid, "requires_action", ⟨tcid, "contact_expert", ⟨pname, ppersona, pinstr⟩⟩ :: tcs⟩ : Run) :: polls',
        Except.ok "" :: comps, subs, lists⟩, run0, last⟩ =
      .cont
        ⟨⟨create, polls', comps, subs, lists⟩,
          ⟨thid, rid, "requires_action", ⟨tcid, "contact_expert", ⟨pname, ppersona, pinstr⟩⟩ :: tcs⟩,
          last⟩
        [.retrieveRun,
          .print (Fore.YELLOW ++ " OpenAI: Running function..." ++ "requires_action" ++ " " ++ Style.RESET_ALL),
          .print (Fore.BLUE ++ " " ++ pname ++ ": " ++ pyOrEmpty ppersona ++ "\n" ++ pinstr ++ " " ++ Style.RESET_ALL),
          .chatCompletion ⟨"gpt-4-turbo-preview", "You are an " ++ pname ++ ". " ++ pyStr ppersona, pinstr, 2 / 10⟩] := by
  have hemp : String.isEmpty "" = true := rfl
  simp [driver_step, check_run, handle_contact_expert, pyTruthy, hemp]

/-- Claim C10: when the `contact_expert` arguments omit the `persona`
field (`args.get('persona')` is `None`), the completion call's
system-role message reads `You are an <name>. None` — the Python `None`
is interpolated literally — whatever the scripted reply is. -/
theorem c10_absent_persona_interpolates_none
    (thid rid tcid pname pinstr : String) (tcs : List ToolCall)
    (reply : Except String String)
    (polls' : List Run) (comps : List (Except String String))
    (subs : List Run) (lists : List (List Msg))
    (create : Except String Run) (run0 : Run) (last : Option String) :
    ∃ p, Event.chatCompletion p ∈
        (driver_step
          ⟨⟨create,
            (⟨thid, rid, "requires_action", ⟨tcid, "contact_expert", ⟨pname, none, pinstr⟩⟩ :: tcs⟩ : Run) :: polls',
            reply :: comps, subs, lists⟩, run0, last⟩).events ∧
      p.system_content = "You are an " ++ pname ++ ". None" := by
  refine ⟨⟨"gpt-4-turbo-preview", "You are an " ++ pname ++ ". " ++ pyStr none, pinstr, 2 / 10⟩, ?_, ?_⟩
  · rcases reply with e | c
    · simp [driver_step, check_run, handle_contact_expert, pyTruthy, StepResult.events]
    · rcases hemp : c.isEmpty with _ | _
      · rcases subs with _ | ⟨newRun, subs'⟩ <;>
          simp [driver_step, check_run, handle_contact_expert, pyTruthy, hemp, StepResult.events]
      · simp [driver_step, check_run, handle_contact_expert, pyTruthy, hemp, StepResult.events]
  · simp [pyStr, String.append_assoc]

/-- Claim C9: when the non-`requires_action` branch lists messages and
the returned list is empty, the `data[-1]` subscript raises `IndexError`;
the loop stops, the exception reaches `main`, which prints it and exits
with code 1. -/
theorem c9_empty_message_list_raises_and_exits_one
    (inp : String) (hinp : inp ≠ "quit") (thid rid status : String)
    (hst : status = "completed" ∨ status = "expired" ∨ status = "failed")
    (tcs : List ToolCall) (polls' : List Run)
    (comps : List (Except String String)) (subs : List Run)
    (lists' : List (List Msg)) (fuel : Nat) :
    (main inp (fuel + 1)
        ⟨Except.ok (⟨thid, rid, status, tcs⟩ : Run),
          (⟨thid, rid, status, tcs⟩ : Run) :: polls', comps, subs,
          ([] : List Msg) :: lists'⟩).1 = .exitCode 1 ∧
    (main inp (fuel + 1)
        ⟨Except.ok (⟨thid, rid, status, tcs⟩ : Run),
          (⟨thid, rid, status, tcs⟩ : Run) :: polls', comps, subs,
          ([] : List Msg) :: lists'⟩).2.getLast? =
      some (.print "list index out of range") := by
  rcases hst with h | h | h <;> subst h <;>
    simp [main, handle_user_input, run_assistant, driver_step, check_run, hinp]

/-- Witness for C9 at a concrete input line and a concrete completed-run
script whose message list is empty. -/
theorem c9_empty_message_list_raises_and_exits_one_witness :
    (main "hi" (0 + 1)
        ⟨Except.ok completedRun, completedRun :: [], [], [],
          ([] : List Msg) :: []⟩).1 = .exitCode 1 ∧
    (main "hi" (0 + 1)
        ⟨Except.ok completedRun, completedRun :: [], [], [],
          ([] : List Msg) :: []⟩).2.getLast? =
      some (.print "list index out of range") :=
  c9_empty_message_list_raises_and_exits_one "hi" (by decide) "th1" "r1"
    "completed" (Or.inl rfl) [] [] [] [] [] 0

/-- Counterexample to claim C1: with a remote script answering `failed`
to every poll (and non-empty message lists), `run_assistant` does not
treat the first `failed` status as terminal: the status is printed twice
— the loop re-entered polling after the first `failed` cycle — and the
driver never returns within the script (it is still demanding more polls
when the script runs out), instead of exiting its loop at the first
`failed` poll. -/
theorem c1_counterexample_failed_does_not_exit_loop :
    (run_assistant 5
        ⟨⟨Except.ok failedRun, [failedRun, failedRun], [], [],
          [[msgSample], [msgSample2]]⟩, failedRun, none⟩).1 = Outcome.stuck ∧
    ((run_assistant 5
        ⟨⟨Except.ok failedRun, [failedRun, failedRun], [], [],
          [[msgSample], [msgSample2]]⟩, failedRun, none⟩).2.count
      (Event.print (Fore.RED ++ "Run is failed." ++ Style.RESET_ALL))) = 2 := by
  constructor
  · rfl
  · rfl

/-- Claim C1 as amended: on a polled `failed` or `expired` status the
poller prints the status and hands the run to the driver, but the
driver's loop does not exit there: it fetches and prints the messages and
re-enters polling (only `completed` breaks the loop), so no process exit
code — zero or not — arises from these states themselves. -/
theorem c1_amended_failed_prints_and_reenters_polling
    (thid rid status : String) (hst : status = "expired" ∨ status = "failed")
    (tcs : List ToolCall) (polls' : List Run)
    (comps : List (Except String String)) (subs : List Run)
    (mId c : String) (cs : List String) (lists' : List (List Msg))
    (create : Except String Run) (run0 : Run) (last : Option String) :
    driver_step
        ⟨⟨create, (⟨thid, rid, status, tcs⟩ : Run) :: polls', comps, subs,
          ((⟨mId, c :: cs⟩ : Msg) :: []) :: lists'⟩, run0, last⟩ =
      .cont
        ⟨⟨create, polls', comps, subs, lists'⟩, ⟨thid, rid, status, tcs⟩, some mId⟩
        [.retrieveRun,
          .print (Fore.RED ++ "Run is " ++ status ++ "." ++ Style.RESET_ALL),
          .listMessages last,
          .print (Fore.BLUE ++ " Assistant: " ++ c ++ " " ++ Style.RESET_ALL)] := by
  rcases hst with h | h <;> subst h <;>
    simp [driver_step, check_run, print_messages]

/-- Witness for the amended C1 at a concrete failed poll script. -/
theorem c1_amended_failed_prints_and_reenters_polling_witness :
    driver_step
        ⟨⟨Except.ok failedRun, (⟨"th1", "r1", "failed", []⟩ : Run) :: [], [], [],
          ((⟨"m1", "hello" :: []⟩ : Msg) :: []) :: []⟩, failedRun, none⟩ =
      .cont
        ⟨⟨Except.ok failedRun, [], [], [], []⟩, ⟨"th1", "r1", "failed", []⟩, some "m1"⟩
        [.retrieveRun,
          .print (Fore.RED ++ "Run is " ++ "failed" ++ "." ++ Style.RESET_ALL),
          .listMessages none,
          .print (Fore.BLUE ++ " Assistant: " ++ "hello" ++ " " ++ Style.RESET_ALL)] :=
  c1_amended_failed_prints_and_reenters_polling "th1" "r1" "failed"
    (Or.inr rfl) [] [] [] [] "m1" "hello" [] [] (Except.ok failedRun)
    failedRun none

end Assistant
